import Mathlib

/-!
Verification development for the Real-time-Messaging-App repository.

The real-time core is the socket.io connection handler in
`client/src/contexts/SocketContext.js` (the file also contains the Express
server entry point; the socket handlers are at lines 189-228), the chat
client `client/src/components/ChatRoom.js`, and the REST message routes
`routes/messages.js` with the mongoose `Message` schema.

We shallowly embed:
  * JavaScript event payloads as association lists of string keys to a small
    value type (`JsObject`); absent keys read as `undefined`, as in JS;
  * socket.io room state as the finite relation between room ids and socket
    ids (`RoomPairs`).  `socket.join` / `socket.leave` / room cleanup on
    disconnect follow the socket.io in-memory adapter, in which each room is
    a set of socket ids: join is a set insert (no-op when present), leave and
    disconnect remove;
  * each `socket.on(...)` handler of SocketContext.js as a function from the
    relevant state and inbound payload to the new state and/or the list of
    (target socket, payload) deliveries.  `socket.to(room).emit(...)`
    delivers to every socket in the room except the sender;
  * the client-side `handleSendMessage` and the `user_typing` listener of
    ChatRoom.js;
  * the message store (mongoose documents) as a list of `StoredMsg` records
    holding the fields the claims touch, and the POST and DELETE
    `/api/messages` handlers and the GET filter of routes/messages.js.
-/

/-- A JavaScript value as it appears in the socket payloads of this app:
strings, booleans, `undefined` for a missing key, and `other` for values the
handlers forward without inspecting (the `sender` user object, `Date`
timestamps, attachment arrays), tagged so distinct values stay distinct. -/
inductive JsValue where
  | str : String → JsValue
  | bool : Bool → JsValue
  | undefined : JsValue
  | other : String → JsValue
deriving DecidableEq, Repr

/-- A JavaScript object, as a list of key/value fields. -/
abbrev JsObject := List (String × JsValue)

/-- Property read `o[k]`: the first field named `k`, `undefined` if absent. -/
def JsObject.get : JsObject → String → JsValue
  | [], _ => .undefined
  | (k', v) :: rest, k => if k' = k then v else JsObject.get rest k

abbrev SocketId := String
abbrev RoomId := String

/-- The socket.io room state: the pairs (room id, socket id) such that the
socket is currently in the room.  The adapter keeps each room as a set, which
the operations below preserve. -/
abbrev RoomPairs := List (RoomId × SocketId)

/-- Models `socket.join(roomId)` — adds the socket to the room; no-op when already
present (socket.io rooms are sets). -/
def socketJoin (ps : RoomPairs) (s : SocketId) (r : RoomId) : RoomPairs :=
  if (r, s) ∈ ps then ps else (r, s) :: ps

/-- Models `socket.leave(roomId)` — removes the socket from the room. -/
def socketLeave (ps : RoomPairs) (s : SocketId) (r : RoomId) : RoomPairs :=
  ps.filter (fun p => decide (p ≠ (r, s)))

/-- The socket.io automatic cleanup when a socket disconnects: the socket is
removed from every room it was in. -/
def socketDisconnectCleanup (ps : RoomPairs) (s : SocketId) : RoomPairs :=
  ps.filter (fun p => decide (p.2 ≠ s))

/-- The `subscribers(room)` view: the sockets currently in the room. -/
def subscribers (ps : RoomPairs) (r : RoomId) : List SocketId :=
  (ps.filter (fun p => decide (p.1 = r))).map Prod.snd

/-- The room key: socket.io coerces the room argument of `socket.to` to a string key; the
payloads in this app carry string room ids, any other value keys the empty
room name. -/
def roomKey : JsValue → String
  | .str s => s
  | _ => ""

/-- Embeds SocketContext.js:199-202 — `socket.on('join_room', (roomId) => {
socket.join(roomId); ... })`.  The handler joins unconditionally; it takes no
membership information and performs no authorization check. -/
def joinRoomHandler (ps : RoomPairs) (s : SocketId) (roomId : RoomId) : RoomPairs :=
  socketJoin ps s roomId

/-- Embeds SocketContext.js:205-208 — `socket.on('leave_room', (roomId) => {
socket.leave(roomId); ... })`. -/
def leaveRoomHandler (ps : RoomPairs) (s : SocketId) (roomId : RoomId) : RoomPairs :=
  socketLeave ps s roomId

/-- Embeds SocketContext.js:211-213 — `socket.on('send_message', (data) => {
socket.to(data.roomId).emit('receive_message', data); })`.  Result: the list
of (recipient socket, delivered payload) pairs; `socket.to(room)` targets
every socket in the room except the sender, and the payload is relayed
verbatim. -/
def sendMessageHandler (ps : RoomPairs) (sender : SocketId) (data : JsObject) :
    List (SocketId × JsObject) :=
  ((subscribers ps (roomKey (data.get "roomId"))).filter
      (fun t => decide (t ≠ sender))).map (fun t => (t, data))

/-- Embeds SocketContext.js:216-222 — the payload of the outbound `user_typing`
event: `{ userId: data.userId, username: data.username, isTyping:
data.isTyping }`, fields copied from the inbound payload, nothing else. -/
def typingHandler (data : JsObject) : JsObject :=
  [("userId", data.get "userId"),
   ("username", data.get "username"),
   ("isTyping", data.get "isTyping")]

/-- Embeds SocketContext.js:216-222 — full effect of the `typing` handler:
`socket.to(data.roomId).emit('user_typing', {...})`, same audience rule as
`send_message`, payload built by `typingHandler`. -/
def typingEmit (ps : RoomPairs) (sender : SocketId) (data : JsObject) :
    List (SocketId × JsObject) :=
  ((subscribers ps (roomKey (data.get "roomId"))).filter
      (fun t => decide (t ≠ sender))).map (fun t => (t, typingHandler data))

/-- Server state for the disconnect claim: the socket.io room relation plus
the per-user online flags (the `isOnline` field of the mongoose User schema,
which the room routes expose via `populate('members.user', '... isOnline')`). -/
structure ServerState where
  rooms : RoomPairs
  usersOnline : List (String × Bool)
deriving DecidableEq, Repr

/-- Embeds SocketContext.js:225-227 — `socket.on('disconnect', () => {
console.log(...) })`.  The handler body only logs; socket.io then removes the
socket from every room.  No user or presence state is read or written. -/
def disconnectHandler (st : ServerState) (s : SocketId) : ServerState :=
  { st with rooms := socketDisconnectCleanup st.rooms s }

/-- Embeds ChatRoom.js:64-72 — the client's `user_typing` listener.  State
`typingUsers` is the list of typing-user payloads currently displayed.  The
listener acts only when `data.roomId === room._id`; on `isTyping` it replaces
any entry with the same `userId`, otherwise it removes that user's entry. -/
def onUserTyping (roomId : String) (typingUsers : List JsObject) (data : JsObject) :
    List JsObject :=
  if data.get "roomId" = .str roomId then
    if data.get "isTyping" = .bool true then
      data :: typingUsers.filter (fun u => decide (u.get "userId" ≠ data.get "userId"))
    else
      typingUsers.filter (fun u => decide (u.get "userId" ≠ data.get "userId"))
  else typingUsers

/-- A stored message document (mongoose `Message` schema), restricted to the
fields the claims touch; `id` stands for the unique Mongo `_id`. -/
structure StoredMsg where
  id : Nat
  content : String
  sender : String
  room : String
  isDeleted : Bool
  deletedAt : Option Nat
deriving DecidableEq, Repr

/-- A POST /api/messages request after auth middleware: `req.userId` plus the
body fields the route reads. -/
structure PostRequest where
  userId : String
  content : String
  roomId : String
  hasAttachments : Bool
deriving DecidableEq, Repr

/-- Embeds routes/messages.js:59-123 — POST /api/messages.  Validates content length
(≤ 2000), checks the requester is a member of an active room (404 otherwise),
requires content or attachments, then saves a new document; `newId` is the id
Mongo assigns to the saved document.  A thrown save error is the 500 branch. -/
def postMessage (req : PostRequest) («isMember» : Bool) (saveFails : Bool)
    (newId : Nat) : Except String StoredMsg :=
  if req.content.length > 2000 then
    .error "Message content must be less than 2000 characters"
  else if ¬ «isMember» then
    .error "Room not found or access denied"
  else if req.content = "" ∧ ¬ req.hasAttachments then
    .error "Message content or attachments required"
  else if saveFails then
    .error "Server error"
  else
    .ok { id := newId, content := req.content, sender := req.userId,
          room := req.roomId, isDeleted := false, deletedAt := none }

/-- Embeds ChatRoom.js:101-106 — the `messageData` object the client builds before
posting and then emits over the socket: `{ content, roomId, sender: user,
timestamp: new Date() }`.  `sender` is the whole user object and `timestamp`
the Date value; both are forwarded opaquely. -/
def clientMessageData (content roomId : String) (sender timestamp : JsValue) :
    JsObject :=
  [("content", .str content), ("roomId", .str roomId),
   ("sender", sender), ("timestamp", timestamp)]

/-- JavaScript `String.prototype.trim`: strips leading and trailing
whitespace.  Defined structurally over the character list so that it
evaluates inside the kernel. -/
def strTrim (s : String) : String :=
  String.mk (((s.data.dropWhile Char.isWhitespace).reverse.dropWhile
      Char.isWhitespace).reverse)

/-- Outcome of the client send path: the payload emitted via
`sendMessage(messageData)` (none when nothing was emitted) and the argument
of the `console.error` call in the catch block (none when no error). -/
structure SendResult where
  emitted : Option JsObject
  consoleError : Option String
deriving DecidableEq, Repr

/-- Embeds ChatRoom.js:98-132 — `handleSendMessage`: returns early on blank input;
otherwise awaits POST /api/messages and only then emits `messageData` over
the socket; a rejected POST lands in the catch block, which only logs and
emits nothing. -/
def handleSendMessage (content roomId : String) (sender timestamp : JsValue)
    (postResult : Except String StoredMsg) : SendResult :=
  if strTrim content = "" then ⟨none, none⟩
  else
    match postResult with
    | .error e => ⟨none, some e⟩
    | .ok _ => ⟨some (clientMessageData content roomId sender timestamp), none⟩

/-- Embeds routes/messages.js:191-194 — the soft-delete update applied to the found
document. -/
def softDelete (m : StoredMsg) (now : Nat) : StoredMsg :=
  { m with isDeleted := true, deletedAt := some now,
           content := "This message was deleted" }

/-- Embeds routes/messages.js:179-203 — DELETE /api/messages/:id.  Finds the
document with this id, this sender and `isDeleted: false` (404 → `none`
otherwise), applies the soft delete and saves.  Saving updates the document
with that `_id` (unique in Mongo). -/
def deleteMessage (db : List StoredMsg) (userId : String) (mid : Nat)
    (now : Nat) : Option (List StoredMsg) :=
  match db.find? (fun m =>
      decide (m.id = mid) && decide (m.sender = userId) && !m.isDeleted) with
  | none => none
  | some m0 =>
      some (db.map (fun x => if x.id = m0.id then softDelete x now else x))

/-- Embeds routes/messages.js:28-31 — the `Message.find` filter of
GET /api/messages/:roomId: messages of the room with `isDeleted: false`.
Sorting and pagination only select among these. -/
def getMessages (db : List StoredMsg) (roomId : String) : List StoredMsg :=
  db.filter (fun m => decide (m.room = roomId) && !m.isDeleted)

/-- A membership authority that never grants membership; stands for the
`is_member(user_id, room_id)` collaborator in the counterexamples. -/
def deniesAll : String → String → Bool := fun _ _ => false

/-- C8: Join and leave are idempotent: a repeated `join_room` by the same
connection leaves the room state (hence the size of `subscribers(R)`)
unchanged, and a repeated `leave_room` after the first is a no-op. -/
theorem c8_join_leave_idempotent (ps : RoomPairs) (s : SocketId) (r : RoomId) :
    joinRoomHandler (joinRoomHandler ps s r) s r = joinRoomHandler ps s r ∧
    (subscribers (joinRoomHandler (joinRoomHandler ps s r) s r) r).length =
      (subscribers (joinRoomHandler ps s r) r).length ∧
    leaveRoomHandler (leaveRoomHandler ps s r) s r = leaveRoomHandler ps s r := by
  have hjoin : joinRoomHandler (joinRoomHandler ps s r) s r = joinRoomHandler ps s r := by
    unfold joinRoomHandler socketJoin
    by_cases h : (r, s) ∈ ps
    · simp [h]
    · simp [h, List.mem_cons]
  refine ⟨hjoin, by rw [hjoin], ?_⟩
  unfold leaveRoomHandler socketLeave
  apply List.filter_eq_self.mpr
  intro p hp
  exact (List.mem_filter.mp hp).2

/-- C5 (amended): the `join_room` handler subscribes the connection
unconditionally; it takes no membership authority as input, so the
subscription appears with no prior `is_member` check. -/
theorem c5_join_is_unconditional (ps : RoomPairs) (s : SocketId) (r : RoomId) :
    s ∈ subscribers (joinRoomHandler ps s r) r := by
  have hmem : (r, s) ∈ socketJoin ps s r := by
    unfold socketJoin
    by_cases h : (r, s) ∈ ps <;> simp [h]
  unfold joinRoomHandler subscribers
  exact List.mem_map_of_mem Prod.snd
    (List.mem_filter.mpr ⟨hmem, by simp⟩)

/-- C5 counterexample: starting from the empty room state, connection "c1"
becomes a subscriber of room "general" by a single `join_room`, while the
membership authority `deniesAll` never returned true for any user and room —
so a connection is subscribed although no `is_member` check ever succeeded. -/
theorem c5_counterexample :
    "c1" ∈ subscribers (joinRoomHandler [] "c1" "general") "general" ∧
    (∀ u r, deniesAll u r = false) :=
  ⟨by decide, fun _ _ => rfl⟩

/-- C4 (amended): after a disconnect the connection is gone from every room's
subscriber set (socket.io's automatic cleanup), but the user online flags are
untouched: the repository's disconnect handler only logs, so presence is not
updated. -/
theorem c4_disconnect_purges_rooms_not_presence (st : ServerState) (s : SocketId)
    (r : RoomId) :
    s ∉ subscribers (disconnectHandler st s).rooms r ∧
    (disconnectHandler st s).usersOnline = st.usersOnline := by
  constructor
  · intro hmem
    unfold disconnectHandler socketDisconnectCleanup subscribers at hmem
    rcases List.mem_map.mp hmem with ⟨p, hpf, hsnd⟩
    have h2 : p.2 ≠ s :=
      of_decide_eq_true (List.mem_filter.mp (List.mem_of_mem_filter hpf)).2
    exact h2 hsnd
  · rfl

/-- State for the C4 counterexample: user "alice" is online and her only
connection "c1" is in room "general". -/
def c4State : ServerState := ⟨[("general", "c1")], [("alice", true)]⟩

/-- C4 counterexample: after the disconnect of "c1" completes, the room
relation is purged, but "alice" is still recorded online — disconnect did not
remove the user from presence (the server code never binds a socket to a user
and its disconnect handler performs no presence update). -/
theorem c4_counterexample :
    (disconnectHandler c4State "c1").rooms = [] ∧
    ("alice", true) ∈ (disconnectHandler c4State "c1").usersOnline := by
  constructor <;> decide

/-- C7 (bug evidence): the server's outbound `user_typing` payload carries no
`roomId`, but the client listener only acts when `data.roomId === room._id`,
so the listener leaves `typingUsers` unchanged on every payload the typing
handler produces — no user is ever counted as typing, for any room, state and
inbound event; in particular the concrete typing=true event for room
"general" leaves the empty typing list empty. -/
theorem c7_typing_indicator_never_updates (room : String) (ts : List JsObject)
    (d : JsObject) :
    onUserTyping room ts (typingHandler d) = ts ∧
    onUserTyping "general" []
      (typingHandler [("roomId", .str "general"), ("userId", .str "u1"),
        ("username", .str "alice"), ("isTyping", .bool true)]) = [] := by
  constructor
  · have hroom : (typingHandler d).get "roomId" = JsValue.undefined := rfl
    unfold onUserTyping
    rw [hroom, if_neg (fun h => nomatch h)]
  · decide

/-- C9: the outbound `user_typing` payload has exactly the keys `userId`,
`username`, `isTyping`, each copied from the inbound event, and no `roomId`
field. -/
theorem c9_user_typing_fields (d : JsObject) :
    (typingHandler d).map Prod.fst = ["userId", "username", "isTyping"] ∧
    (typingHandler d).get "userId" = d.get "userId" ∧
    (typingHandler d).get "username" = d.get "username" ∧
    (typingHandler d).get "isTyping" = d.get "isTyping" ∧
    (∀ v : JsValue, ("roomId", v) ∉ typingHandler d) ∧
    (typingHandler d).get "roomId" = JsValue.undefined := by
  refine ⟨rfl, rfl, rfl, rfl, ?_, rfl⟩
  intro v hv
  simp only [typingHandler, List.mem_cons, List.not_mem_nil, or_false] at hv
  rcases hv with h | h | h
  · have hk : ("roomId" : String) = "userId" := congrArg Prod.fst h
    exact absurd hk (by decide)
  · have hk : ("roomId" : String) = "username" := congrArg Prod.fst h
    exact absurd hk (by decide)
  · have hk : ("roomId" : String) = "isTyping" := congrArg Prod.fst h
    exact absurd hk (by decide)

/-- C6 (amended): the identity attributed to an inbound event comes from the
payload, not the transport: the typing handler copies `userId` and `username`
from the payload, and the message handler relays the inbound payload (with
whatever `sender` it carries) verbatim to every recipient.  The socket id is
not written into any outbound payload. -/
theorem c6_identity_taken_from_payload (d : JsObject) (ps : RoomPairs)
    (s : SocketId) :
    (typingHandler d).get "userId" = d.get "userId" ∧
    (typingHandler d).get "username" = d.get "username" ∧
    ((sendMessageHandler ps s d).map Prod.snd).all
      (fun p => decide (p = d)) = true := by
  refine ⟨rfl, rfl, ?_⟩
  apply List.all_eq_true.mpr
  intro x hx
  rcases List.mem_map.mp hx with ⟨q, hq, hx'⟩
  rcases List.mem_map.mp hq with ⟨t, _, hq'⟩
  subst hq'
  subst hx'
  exact decide_eq_true rfl

/-- Room state for the C6 counterexample: sockets "s1" and "s2" in room "g". -/
def c6Rooms : RoomPairs := [("g", "s1"), ("g", "s2")]

/-- Typing payload claiming identity "u1", sent on connection "s1". -/
def c6Data1 : JsObject :=
  [("roomId", .str "g"), ("userId", .str "u1"),
   ("username", .str "alice"), ("isTyping", .bool true)]

/-- The same event on the same connection "s1", differing only in the
payload-supplied `userId`. -/
def c6Data2 : JsObject :=
  [("roomId", .str "g"), ("userId", .str "u2"),
   ("username", .str "alice"), ("isTyping", .bool true)]

/-- C6 counterexample: two typing events on the same connection "s1" that
differ only in the payload identity field are forwarded with different
attributed identities ("u1" vs "u2") — attribution follows the payload, not
the connection. -/
theorem c6_counterexample :
    typingEmit c6Rooms "s1" c6Data1 = [("s2", typingHandler c6Data1)] ∧
    typingEmit c6Rooms "s1" c6Data2 = [("s2", typingHandler c6Data2)] ∧
    (typingHandler c6Data1).get "userId" = .str "u1" ∧
    (typingHandler c6Data2).get "userId" = .str "u2" ∧
    typingHandler c6Data1 ≠ typingHandler c6Data2 := by
  refine ⟨by decide, by decide, by decide, by decide, by decide⟩

/-- C1: when the sender is a subscriber of the target room, the fan-out of
`send_message` delivers the payload to exactly the other subscribers of the
room: a connection receives the message iff it is a subscriber distinct from
the sender, and no delivery whatsoever goes to the sender. -/
theorem c1_fanout_excludes_sender (ps : RoomPairs) (sender : SocketId)
    (d : JsObject) (r : RoomId)
    (hroom : d.get "roomId" = JsValue.str r)
    (_hs : sender ∈ subscribers ps r) :
    (∀ t, (t, d) ∈ sendMessageHandler ps sender d ↔
        t ∈ subscribers ps r ∧ t ≠ sender) ∧
    (∀ t p, (t, p) ∈ sendMessageHandler ps sender d → p = d ∧ t ≠ sender) := by
  have hkey : roomKey (JsObject.get d "roomId") = r := by rw [hroom]; rfl
  unfold sendMessageHandler
  rw [hkey]
  constructor
  · intro t
    constructor
    · intro hmem
      rcases List.mem_map.mp hmem with ⟨t', ht', heq⟩
      have ht : t' = t := congrArg Prod.fst heq
      subst ht
      have hf := List.mem_filter.mp ht'
      exact ⟨hf.1, of_decide_eq_true hf.2⟩
    · rintro ⟨h1, h2⟩
      exact List.mem_map_of_mem _ (List.mem_filter.mpr ⟨h1, decide_eq_true h2⟩)
  · intro t p hmem
    rcases List.mem_map.mp hmem with ⟨t', ht', heq⟩
    have ht : t' = t := congrArg Prod.fst heq
    have hp : d = p := congrArg Prod.snd heq
    subst ht
    subst hp
    exact ⟨rfl, of_decide_eq_true (List.mem_filter.mp ht').2⟩

/-- Room state for the C1 witness: connections "A", "B", "C" in "general". -/
def c1Rooms : RoomPairs := [("general", "A"), ("general", "B"), ("general", "C")]

/-- Message payload for the C1 witness. -/
def c1Data : JsObject := [("roomId", .str "general"), ("content", .str "hi")]

/-- Witness for C1 at the concrete scenario of the spec: subscribers
{A, B, C}, sender A. -/
theorem c1_fanout_excludes_sender_witness :
    (c1Data.get "roomId" = JsValue.str "general" ∧
      "A" ∈ subscribers c1Rooms "general") ∧
    ((∀ t, (t, c1Data) ∈ sendMessageHandler c1Rooms "A" c1Data ↔
        t ∈ subscribers c1Rooms "general" ∧ t ≠ "A") ∧
     (∀ t p, (t, p) ∈ sendMessageHandler c1Rooms "A" c1Data →
        p = c1Data ∧ t ≠ "A")) :=
  ⟨⟨by decide, by decide⟩,
   c1_fanout_excludes_sender c1Rooms "A" c1Data "general" (by decide) (by decide)⟩

/-- C2 (amended): the `send_message` handler performs no membership check and
has no `NotMember` rejection: even when the sender is not a subscriber of the
target room, the payload is delivered to every subscriber of the room. -/
theorem c2_no_notmember_rejection (ps : RoomPairs) (sender : SocketId)
    (d : JsObject) (r : RoomId)
    (hroom : d.get "roomId" = JsValue.str r)
    (hns : sender ∉ subscribers ps r) :
    sendMessageHandler ps sender d = (subscribers ps r).map (fun t => (t, d)) := by
  have hkey : roomKey (JsObject.get d "roomId") = r := by rw [hroom]; rfl
  unfold sendMessageHandler
  rw [hkey]
  congr 1
  apply List.filter_eq_self.mpr
  intro t ht
  exact decide_eq_true (fun heq => hns (heq ▸ ht))

/-- Room state for the C2 counterexample: only "B" subscribes to "general". -/
def c2Rooms : RoomPairs := [("general", "B")]

/-- Message payload for the C2 counterexample. -/
def c2Data : JsObject := [("roomId", .str "general"), ("content", .str "hi")]

/-- C2 counterexample: sender "A" is not a subscriber of "general", yet the
handler delivers the message to "B" instead of rejecting the event — the
claimed `NotMember` rejection does not exist. -/
theorem c2_counterexample :
    "A" ∉ subscribers c2Rooms "general" ∧
    sendMessageHandler c2Rooms "A" c2Data = [("B", c2Data)] :=
  ⟨by decide, by decide⟩

/-- Witness for C2's amended theorem at the counterexample state. -/
theorem c2_no_notmember_rejection_witness :
    (c2Data.get "roomId" = JsValue.str "general" ∧
      "A" ∉ subscribers c2Rooms "general") ∧
    sendMessageHandler c2Rooms "A" c2Data =
      (subscribers c2Rooms "general").map (fun t => (t, c2Data)) :=
  ⟨⟨by decide, by decide⟩,
   c2_no_notmember_rejection c2Rooms "A" c2Data "general" (by decide) (by decide)⟩

/-- C3 (amended): the client awaits POST /api/messages before emitting over
the socket, so a failed persist aborts the emit (the error is only written to
`console.error`); on success the emitted real-time payload is the
client-built `messageData` — content, roomId, sender object and timestamp —
which does not depend on (and does not contain) the id the store assigned. -/
theorem c3_persist_gates_emit (content roomId : String) (sender timestamp : JsValue)
    (hcontent : strTrim content ≠ "") :
    (∀ e, handleSendMessage content roomId sender timestamp (Except.error e) =
        ⟨none, some e⟩) ∧
    (∀ m : StoredMsg, handleSendMessage content roomId sender timestamp (Except.ok m) =
        ⟨some (clientMessageData content roomId sender timestamp), none⟩) := by
  constructor
  · intro e
    unfold handleSendMessage
    rw [if_neg hcontent]
  · intro m
    unfold handleSendMessage
    rw [if_neg hcontent]

/-- Witness for C3's amended theorem at a concrete send. -/
theorem c3_persist_gates_emit_witness :
    (strTrim "hi" ≠ "") ∧
    ((∀ e, handleSendMessage "hi" "general" (JsValue.other "alice")
        (JsValue.other "t0") (Except.error e) = ⟨none, some e⟩) ∧
     (∀ m : StoredMsg, handleSendMessage "hi" "general" (JsValue.other "alice")
        (JsValue.other "t0") (Except.ok m) =
        ⟨some (clientMessageData "hi" "general" (JsValue.other "alice")
          (JsValue.other "t0")), none⟩)) :=
  ⟨by decide,
   c3_persist_gates_emit "hi" "general" (JsValue.other "alice")
     (JsValue.other "t0") (by decide)⟩

/-- The document the store returns when POST /api/messages saves the C3
message and Mongo assigns id 42. -/
def c3Stored42 : StoredMsg := ⟨42, "hi", "alice", "general", false, none⟩

/-- The same save with assigned id 7. -/
def c3Stored7 : StoredMsg := ⟨7, "hi", "alice", "general", false, none⟩

/-- C3 counterexample: the store assigns an id (here 42) when persisting, but
the payload the client then hands to the fan-out is identical whether the
store assigned 42 or 7, and has no `_id`/`id` field at all — so the delivered
message does not carry the durable id assigned by the store. -/
theorem c3_counterexample :
    postMessage ⟨"alice", "hi", "general", false⟩ true false 42 =
      Except.ok c3Stored42 ∧
    handleSendMessage "hi" "general" (JsValue.other "alice") (JsValue.other "t0")
        (Except.ok c3Stored42) =
      handleSendMessage "hi" "general" (JsValue.other "alice") (JsValue.other "t0")
        (Except.ok c3Stored7) ∧
    (handleSendMessage "hi" "general" (JsValue.other "alice") (JsValue.other "t0")
        (Except.ok c3Stored42)).emitted =
      some (clientMessageData "hi" "general" (JsValue.other "alice")
        (JsValue.other "t0")) ∧
    (clientMessageData "hi" "general" (JsValue.other "alice")
        (JsValue.other "t0")).get "_id" = JsValue.undefined ∧
    (clientMessageData "hi" "general" (JsValue.other "alice")
        (JsValue.other "t0")).get "id" = JsValue.undefined ∧
    c3Stored42.id ≠ c3Stored7.id :=
  ⟨rfl, rfl, rfl, rfl, rfl, by decide⟩

/-- C10: a successful DELETE /api/messages/:id by the sender keeps the stored
record (same store size) as a soft delete — `isDeleted` true, `deletedAt`
set, content replaced by "This message was deleted" — and afterwards
GET /api/messages/:roomId returns no message with that id, for any room. -/
theorem c10_delete_is_soft_and_hidden (db db' : List StoredMsg) (userId : String)
    (mid now : Nat)
    (h : deleteMessage db userId mid now = some db') :
    (∃ m0 ∈ db, m0.id = mid ∧ m0.sender = userId ∧ m0.isDeleted = false ∧
        softDelete m0 now ∈ db' ∧
        (softDelete m0 now).isDeleted = true ∧
        (softDelete m0 now).deletedAt = some now ∧
        (softDelete m0 now).content = "This message was deleted") ∧
    db'.length = db.length ∧
    (∀ r x, x ∈ getMessages db' r → x.id ≠ mid) := by
  unfold deleteMessage at h
  cases hfind : db.find? (fun m =>
      decide (m.id = mid) && decide (m.sender = userId) && !m.isDeleted) with
  | none =>
    rw [hfind] at h
    exact absurd h (by simp)
  | some m0 =>
    rw [hfind] at h
    have hdb' : db.map (fun x => if x.id = m0.id then softDelete x now else x) = db' :=
      Option.some.inj h
    subst hdb'
    have hm0mem : m0 ∈ db := List.mem_of_find?_eq_some hfind
    have hpred := List.find?_some hfind
    rw [Bool.and_eq_true, Bool.and_eq_true] at hpred
    obtain ⟨⟨h1, h2⟩, h3⟩ := hpred
    have hid : m0.id = mid := of_decide_eq_true h1
    have hsender : m0.sender = userId := of_decide_eq_true h2
    have hnotdel : m0.isDeleted = false := by simpa using h3
    have hfm0 : (fun x => if x.id = m0.id then softDelete x now else x) m0 =
        softDelete m0 now := if_pos rfl
    refine ⟨⟨m0, hm0mem, hid, hsender, hnotdel,
      hfm0 ▸ List.mem_map_of_mem _ hm0mem, rfl, rfl, rfl⟩,
      List.length_map _ _, ?_⟩
    intro r x hx hxid
    unfold getMessages at hx
    obtain ⟨hxmem, hxp⟩ := List.mem_filter.mp hx
    rw [Bool.and_eq_true] at hxp
    have hxnotdel : x.isDeleted = false := by simpa using hxp.2
    rcases List.mem_map.mp hxmem with ⟨y, hy, hyx⟩
    by_cases hy' : y.id = m0.id
    · rw [if_pos hy'] at hyx
      have : x.isDeleted = true := by rw [← hyx]; rfl
      rw [this] at hxnotdel
      exact Bool.noConfusion hxnotdel
    · rw [if_neg hy'] at hyx
      subst hyx
      exact hy' (hxid.trans hid.symm)

/-- Store for the C10 witness: one message from "alice" in room "general". -/
def c10Db : List StoredMsg := [⟨1, "hello", "alice", "general", false, none⟩]

/-- The store after alice deletes message 1 at time 5. -/
def c10DbAfter : List StoredMsg :=
  [⟨1, "This message was deleted", "alice", "general", true, some 5⟩]

/-- Witness for C10 at a concrete store and delete request. -/
theorem c10_delete_is_soft_and_hidden_witness :
    deleteMessage c10Db "alice" 1 5 = some c10DbAfter ∧
    ((∃ m0 ∈ c10Db, m0.id = 1 ∧ m0.sender = "alice" ∧ m0.isDeleted = false ∧
        softDelete m0 5 ∈ c10DbAfter ∧
        (softDelete m0 5).isDeleted = true ∧
        (softDelete m0 5).deletedAt = some 5 ∧
        (softDelete m0 5).content = "This message was deleted") ∧
     c10DbAfter.length = c10Db.length ∧
     (∀ r x, x ∈ getMessages c10DbAfter r → x.id ≠ 1)) :=
  ⟨by decide, c10_delete_is_soft_and_hidden c10Db c10DbAfter "alice" 1 5 (by decide)⟩

/-- Witness for C8 at a concrete room state. -/
theorem c8_join_leave_idempotent_witness :
    joinRoomHandler (joinRoomHandler [("general", "A")] "A" "general") "A" "general" =
      joinRoomHandler [("general", "A")] "A" "general" ∧
    (subscribers (joinRoomHandler (joinRoomHandler [("general", "A")] "A" "general")
        "A" "general") "general").length =
      (subscribers (joinRoomHandler [("general", "A")] "A" "general") "general").length ∧
    leaveRoomHandler (leaveRoomHandler [("general", "A")] "A" "general") "A" "general" =
      leaveRoomHandler [("general", "A")] "A" "general" :=
  c8_join_leave_idempotent [("general", "A")] "A" "general"

/-- Witness for C5's amended theorem at a concrete join. -/
theorem c5_join_is_unconditional_witness :
    "B" ∈ subscribers (joinRoomHandler [("general", "A")] "B" "general") "general" :=
  c5_join_is_unconditional [("general", "A")] "B" "general"

/-- Witness for C4's amended theorem at a concrete disconnect. -/
theorem c4_disconnect_purges_rooms_not_presence_witness :
    "c1" ∉ subscribers (disconnectHandler c4State "c1").rooms "general" ∧
    (disconnectHandler c4State "c1").usersOnline = c4State.usersOnline :=
  c4_disconnect_purges_rooms_not_presence c4State "c1" "general"

/-- Inbound typing payload used by the C7 and C9 witnesses. -/
def c7Data : JsObject :=
  [("roomId", .str "general"), ("userId", .str "u9"),
   ("username", .str "bob"), ("isTyping", .bool true)]

/-- Witness for C7's theorem at a concrete typing event. -/
theorem c7_typing_indicator_never_updates_witness :
    onUserTyping "general" [] (typingHandler c7Data) = [] ∧
    onUserTyping "general" []
      (typingHandler [("roomId", .str "general"), ("userId", .str "u1"),
        ("username", .str "alice"), ("isTyping", .bool true)]) = [] :=
  c7_typing_indicator_never_updates "general" [] c7Data

/-- Witness for C9 at a concrete typing event. -/
theorem c9_user_typing_fields_witness :
    (typingHandler c7Data).map Prod.fst = ["userId", "username", "isTyping"] ∧
    (typingHandler c7Data).get "userId" = c7Data.get "userId" ∧
    (typingHandler c7Data).get "username" = c7Data.get "username" ∧
    (typingHandler c7Data).get "isTyping" = c7Data.get "isTyping" ∧
    (∀ v : JsValue, ("roomId", v) ∉ typingHandler c7Data) ∧
    (typingHandler c7Data).get "roomId" = JsValue.undefined :=
  c9_user_typing_fields c7Data

/-- Witness for C6's amended theorem at a concrete event and state. -/
theorem c6_identity_taken_from_payload_witness :
    (typingHandler c7Data).get "userId" = c7Data.get "userId" ∧
    (typingHandler c7Data).get "username" = c7Data.get "username" ∧
    ((sendMessageHandler [("general", "s1"), ("general", "s2")] "s1" c7Data).map
        Prod.snd).all (fun p => decide (p = c7Data)) = true :=
  c6_identity_taken_from_payload c7Data [("general", "s1"), ("general", "s2")] "s1"
